import Mathlib

/-!
Verification of `scripts/generate-simple-report.py`.

The script defines a single function `generate()`:

* reads the current local time and formats it `%Y-%m-%d %H:%M:%S`;
* reads `BUILD_NUMBER` from the process environment, defaulting to
  `"Unknown"` when the variable is unset;
* interpolates both values into a fixed triple-quoted HTML template;
* overwrites `security-report.html` in the working directory inside a
  `with open(...)` block;
* prints one confirmation line.

The embedding below models the ambient inputs (clock, environment,
filesystem outcome) as explicit parameters and the side effects
(filesystem, stdout, resource events) as explicit state.
-/

namespace SecReport

/-- A wall-clock reading, as the fields `datetime.datetime.now()` exposes
for the format codes used by the script. -/
structure DateTime where
  year : Nat
  month : Nat
  day : Nat
  hour : Nat
  minute : Nat
  second : Nat
deriving DecidableEq, Repr

/-- Field ranges of a Python `datetime` value (`MINYEAR = 1`,
`MAXYEAR = 9999`). -/
def ValidTime (d : DateTime) : Prop :=
  1 ≤ d.year ∧ d.year ≤ 9999 ∧
  1 ≤ d.month ∧ d.month ≤ 12 ∧
  1 ≤ d.day ∧ d.day ≤ 31 ∧
  d.hour ≤ 23 ∧ d.minute ≤ 59 ∧ d.second ≤ 59

instance (d : DateTime) : Decidable (ValidTime d) := by
  unfold ValidTime
  exact inferInstance

/-- The decimal digit character for `n % 10`. -/
def digitChar (n : Nat) : Char := Char.ofNat (48 + n % 10)

/-- Decimal rendering, most significant digit first; the first argument is
recursion fuel, always sufficient when it is at least the number itself. -/
def natDigitsAux : Nat → Nat → List Char
  | 0, n => [digitChar n]
  | fuel + 1, n =>
      if n < 10 then [digitChar n] else natDigitsAux fuel (n / 10) ++ [digitChar n]

/-- Decimal rendering of a natural number, most significant digit first. -/
def natDigits (n : Nat) : List Char := natDigitsAux n n

/-- Zero-pad the decimal rendering of `n` to width `w`, as the `strftime`
format codes `%Y` (w = 4) and `%m %d %H %M %S` (w = 2) do. -/
def padNum (w n : Nat) : String :=
  String.mk (List.replicate (w - (natDigits n).length) '0' ++ natDigits n)

/-- Line 5 of the script: now.strftime applied to the format
`%Y-%m-%d %H:%M:%S`. -/
def strftimeFmt (d : DateTime) : String :=
  padNum 4 d.year ++ "-" ++ padNum 2 d.month ++ "-" ++ padNum 2 d.day ++ " " ++
    padNum 2 d.hour ++ ":" ++ padNum 2 d.minute ++ ":" ++ padNum 2 d.second

/-- Line 6 of the script: os.environ.get with key BUILD_NUMBER and default
Unknown.  It yields the stored value when the variable is present — even
when that value is the empty string — and the default only when it is
absent. -/
def buildOf (env : String → Option String) : String :=
  (env "BUILD_NUMBER").getD "Unknown"

/-- Literal chunk of the f-string before the `{now}` interpolation. -/
def seg1 : String :=
  "<html><head><title>DevSecOps Report</title></head><body>\n    <h1>DevSecOps Security Report</h1>\n    <p>Generated: "

/-- Literal chunk of the f-string between `{now}` and `{build}`. -/
def seg2 : String := "</p><p>Build: #"

/-- Literal chunk of the f-string after the `{build}` interpolation. -/
def seg3 : String :=
  "</p>\n    <h2>Summary</h2>\n    <ul><li>SAST: see SonarQube</li><li>Container: see trivy-report.json</li><li>DAST: see zap-report.json</li></ul>\n    </body></html>"

/-- The f-string of lines 7–12: literal chunks with the two interpolated
values spliced in verbatim. -/
def htmlContent (ts build : String) : String :=
  seg1 ++ ts ++ seg2 ++ build ++ seg3

/-- The document `generate()` builds for a given environment and clock
reading. -/
def reportHtml (env : String → Option String) (now : DateTime) : String :=
  htmlContent (strftimeFmt now) (buildOf env)

/-- The hard-coded output filename. -/
def reportFileName : String := "security-report.html"

/-- The confirmation line printed on line 15. -/
def confirmMsg : String := "Security report generated: security-report.html"

/-- Observable state of a run: the directory contents (filename to file
content) and the lines written to standard output. -/
structure World where
  fs : String → Option String
  stdoutLines : List String

/-- Create-or-truncate write of `content` under `name`. -/
def setFile (fs : String → Option String) (name content : String) :
    String → Option String :=
  fun m => if m = name then some content else fs m

/-- Outcome of the filesystem interaction of lines 13–14: `open` may raise
before a handle exists, the write inside the `with` block may raise, or
both succeed. -/
inductive WriteOutcome where
  | ok
  | openFail
  | writeFail
deriving DecidableEq, Repr

/-- One call of `generate()` as a state transformer.  Lines 5–12 are pure;
line 13 opens `security-report.html` for writing (truncating it), line 14
writes the document, line 15 prints the confirmation.  A raised filesystem
error is returned untranslated as `some o` and skips the print; an error
raised by the write still leaves the truncation from the open behind. -/
def runGenerate (env : String → Option String) (now : DateTime)
    (o : WriteOutcome) (w : World) : World × Option WriteOutcome :=
  match o with
  | .ok =>
      (⟨setFile w.fs reportFileName (reportHtml env now),
        w.stdoutLines ++ [confirmMsg]⟩, none)
  | .openFail => (w, some .openFail)
  | .writeFail => (⟨setFile w.fs reportFileName "", w.stdoutLines⟩, some .writeFail)

/-- Resource events of one call, in order. -/
inductive Ev where
  | openEv
  | writeEv (content : String)
  | closeEv
  | printEv (line : String)
deriving DecidableEq, Repr

/-- Event trace of lines 13–15.  The `with open(...)` statement acquires
the handle, runs the write, and closes the handle on both the normal exit
and the exception exit of its body; an `open` failure acquires nothing. -/
def generateTrace (env : String → Option String) (now : DateTime) :
    WriteOutcome → List Ev
  | .openFail => []
  | .writeFail => [.openEv, .closeEv]
  | .ok => [.openEv, .writeEv (reportHtml env now), .closeEv, .printEv confirmMsg]

/-- Whether an event acquires the file handle. -/
def isOpenEv : Ev → Bool
  | .openEv => true
  | _ => false

/-- Whether an event releases the file handle. -/
def isCloseEv : Ev → Bool
  | .closeEv => true
  | _ => false

/-- `startsWith n l` : the list `l` begins with `n`. -/
def startsWith : List Char → List Char → Bool
  | [], _ => true
  | _ :: _, [] => false
  | a :: as, b :: bs => a == b && startsWith as bs

/-- `hasSub n l` : the list `n` occurs contiguously inside `l`. -/
def hasSub (needle : List Char) : List Char → Bool
  | [] => needle.isEmpty
  | c :: t => startsWith needle (c :: t) || hasSub needle t

/-- One step of the HTML tag scanner: outside a tag (`none`) a `<` opens a
tag; inside a tag (`some acc`) a `>` emits the accumulated tag name. -/
def scanStep : List (List Char) × Option (List Char) → Char →
    List (List Char) × Option (List Char) :=
  fun st c =>
    match st.2 with
    | none => if c = '<' then (st.1, some []) else (st.1, none)
    | some acc => if c = '>' then (st.1 ++ [acc.reverse], none)
                  else (st.1, some (c :: acc))

/-- Scan a character list, threading the tag-scanner state. -/
def scanList (l : List Char) (st : List (List Char) × Option (List Char)) :
    List (List Char) × Option (List Char) :=
  l.foldl scanStep st

/-- All tags (as character lists, `/`-marked when closing) of a string. -/
def tagsOf (s : String) : List (List Char) :=
  (scanList s.data ([], none)).1

/-- Check that a tag sequence is properly nested, with `stack` the open
tags still awaiting their closing tag. -/
def checkBalanced : List (List Char) → List (List Char) → Bool
  | [], stack => stack.isEmpty
  | t :: ts, stack =>
      match t with
      | '/' :: name =>
          match stack with
          | [] => false
          | s :: ss => name == s && checkBalanced ts ss
      | _ =>
          checkBalanced ts (t :: stack)

/-- Well-formedness of an HTML document as proper nesting of its tags. -/
def htmlBalanced (s : String) : Bool :=
  checkBalanced (tagsOf s) []

/-- `matchesPat p l` : `l` matches the pattern `p`, where the pattern
character `D` stands for any decimal digit and every other pattern
character stands for itself. -/
def matchesPat : List Char → List Char → Bool
  | [], [] => true
  | p :: ps, c :: cs => (if p = 'D' then c.isDigit else p == c) && matchesPat ps cs
  | _, _ => false

/-- The timestamp shape required by the spec,
`\d\x7b4\x7d-\d\x7b2\x7d-\d\x7b2\x7d \d\x7b2\x7d:\d\x7b2\x7d:\d\x7b2\x7d`. -/
def timestampPat (s : String) : Bool :=
  matchesPat "DDDD-DD-DD DD:DD:DD".data s.data

/-- Modelled from the spec: the output template exactly as printed in the
External Interfaces section, whose lines are all flush-left. -/
def specTemplateFlushLeft (ts build : String) : String :=
  String.intercalate "\n"
    ["<html><head><title>DevSecOps Report</title></head><body>",
     "<h1>DevSecOps Security Report</h1>",
     "<p>Generated: " ++ ts ++ "</p><p>Build: #" ++ build ++ "</p>",
     "<h2>Summary</h2>",
     "<ul><li>SAST: see SonarQube</li><li>Container: see trivy-report.json</li><li>DAST: see zap-report.json</li></ul>",
     "</body></html>"]

/-- Modelled from the spec's template, amended: the same six lines, but
every line after the first carries the four spaces of leading indentation
that the triple-quoted f-string keeps. -/
def specTemplateIndented (ts build : String) : String :=
  String.intercalate "\n    "
    ["<html><head><title>DevSecOps Report</title></head><body>",
     "<h1>DevSecOps Security Report</h1>",
     "<p>Generated: " ++ ts ++ "</p><p>Build: #" ++ build ++ "</p>",
     "<h2>Summary</h2>",
     "<ul><li>SAST: see SonarQube</li><li>Container: see trivy-report.json</li><li>DAST: see zap-report.json</li></ul>",
     "</body></html>"]

/-! Concrete sample inputs used by witnesses and counterexamples. -/

/-- A sample clock reading. -/
def sampleTime : DateTime := ⟨2026, 10, 12, 3, 4, 5⟩

/-- An environment with no variables set. -/
def envUnset : String → Option String := fun _ => none

/-- An environment holding only BUILD_NUMBER, with value `v`. -/
def envOf (v : String) : String → Option String :=
  fun nm => if nm = "BUILD_NUMBER" then some v else none

/-- An environment that sets only PATH; BUILD_NUMBER is absent. -/
def envPathOnly : String → Option String :=
  fun nm => if nm = "PATH" then some "/usr/bin" else none

/-- An empty directory and empty stdout. -/
def emptyWorld : World := ⟨fun _ => none, []⟩

/-! Helper lemmas: substring search. -/

theorem startsWith_self_append (n rest : List Char) :
    startsWith n (n ++ rest) = true := by
  induction n with
  | nil => simp [startsWith]
  | cons a as ih => simpa [startsWith] using ih

theorem hasSub_append_self (needle b : List Char) :
    hasSub needle (needle ++ b) = true := by
  cases needle with
  | nil => cases b <;> simp [hasSub, startsWith]
  | cons x xs =>
      have h := startsWith_self_append (x :: xs) b
      simp only [List.cons_append] at h
      simp [hasSub, h]

theorem hasSub_of_split (needle a b : List Char) :
    hasSub needle (a ++ (needle ++ b)) = true := by
  induction a with
  | nil => simpa using hasSub_append_self needle b
  | cons c cs ih =>
      simp only [List.cons_append]
      simp [hasSub, ih]

/-! Helper lemmas: decimal digits and zero-padding. -/

theorem digitChar_isDigit (n : Nat) : (digitChar n).isDigit = true := by
  have h : n % 10 < 10 := Nat.mod_lt _ (by omega)
  have h10 : n % 10 = 0 ∨ n % 10 = 1 ∨ n % 10 = 2 ∨ n % 10 = 3 ∨ n % 10 = 4 ∨
      n % 10 = 5 ∨ n % 10 = 6 ∨ n % 10 = 7 ∨ n % 10 = 8 ∨ n % 10 = 9 := by omega
  unfold digitChar
  rcases h10 with h1|h1|h1|h1|h1|h1|h1|h1|h1|h1 <;> rw [h1] <;> decide

theorem natDigitsAux_isDigit :
    ∀ fuel n c, c ∈ natDigitsAux fuel n → c.isDigit = true := by
  intro fuel
  induction fuel with
  | zero =>
      intro n c hc
      simp [natDigitsAux] at hc
      simp [hc, digitChar_isDigit]
  | succ f ih =>
      intro n c hc
      by_cases h : n < 10
      · simp [natDigitsAux, h] at hc
        simp [hc, digitChar_isDigit]
      · simp [natDigitsAux, h] at hc
        rcases hc with hc | hc
        · exact ih _ _ hc
        · simp [hc, digitChar_isDigit]

theorem natDigitsAux_length_le :
    ∀ fuel k n, 1 ≤ k → n < 10 ^ k → (natDigitsAux fuel n).length ≤ k := by
  intro fuel
  induction fuel with
  | zero =>
      intro k n h1 _
      simp [natDigitsAux]
      omega
  | succ f ih =>
      intro k n h1 h2
      by_cases h : n < 10
      · simp [natDigitsAux, h]
        omega
      · have hk : 2 ≤ k := by
          by_contra hlt
          have hk1 : k = 1 := by omega
          rw [hk1, pow_one] at h2
          omega
        have hsplit : (10 : Nat) ^ k = 10 ^ (k - 1) * 10 := by
          conv_lhs => rw [show k = (k - 1) + 1 by omega]
          rw [pow_succ]
        have hd : n / 10 < 10 ^ (k - 1) := by
          rw [Nat.div_lt_iff_lt_mul (by omega : 0 < 10)]
          omega
        have hrec := ih (k - 1) (n / 10) (by omega) hd
        simp [natDigitsAux, h]
        omega

theorem natDigits_isDigit (n : Nat) (c : Char) (hc : c ∈ natDigits n) :
    c.isDigit = true :=
  natDigitsAux_isDigit n n c hc

theorem natDigits_length_le (k n : Nat) (h1 : 1 ≤ k) (h2 : n < 10 ^ k) :
    (natDigits n).length ≤ k :=
  natDigitsAux_length_le n k n h1 h2

theorem padNum_data (w n : Nat) :
    (padNum w n).data =
      List.replicate (w - (natDigits n).length) '0' ++ natDigits n := rfl

theorem padNum_length (w n : Nat) (h : (natDigits n).length ≤ w) :
    (padNum w n).data.length = w := by
  rw [padNum_data]
  simp [List.length_append, List.length_replicate]
  omega

theorem padNum_isDigit (w n : Nat) (c : Char) (hc : c ∈ (padNum w n).data) :
    c.isDigit = true := by
  rw [padNum_data] at hc
  rcases List.mem_append.1 hc with h | h
  · have hz := List.eq_of_mem_replicate h
    rw [hz]
    decide
  · exact natDigits_isDigit n c h

/-! Helper lemmas: the pattern matcher. -/

theorem matchesPat_append (p1 p2 c1 c2 : List Char) (h : p1.length = c1.length) :
    matchesPat (p1 ++ p2) (c1 ++ c2) = (matchesPat p1 c1 && matchesPat p2 c2) := by
  induction p1 generalizing c1 with
  | nil =>
      cases c1 with
      | nil => simp [matchesPat]
      | cons c cs => simp at h
  | cons p ps ih =>
      cases c1 with
      | nil => simp at h
      | cons c cs =>
          simp only [List.cons_append, matchesPat, List.append_eq]
          rw [ih cs (by simpa using h), Bool.and_assoc]

theorem matchesPat_digits (ds : List Char) (h : ∀ c ∈ ds, c.isDigit = true) :
    matchesPat (List.replicate ds.length 'D') ds = true := by
  induction ds with
  | nil => simp [matchesPat]
  | cons c cs ih =>
      simp only [List.length_cons, List.replicate_succ, matchesPat, if_pos rfl]
      have hc := h c (by simp)
      have hcs := ih (fun x hx => h x (by simp [hx]))
      simp [hc, hcs]

theorem matchesPat_step (p1 c1 p2 c2 : List Char)
    (hm : matchesPat p1 c1 = true) (hl : p1.length = c1.length)
    (hm2 : matchesPat p2 c2 = true) :
    matchesPat (p1 ++ p2) (c1 ++ c2) = true := by
  rw [matchesPat_append p1 p2 c1 c2 hl, hm, hm2]
  rfl

theorem matchesPat_pad (w n k : Nat) (h : (padNum w n).data.length = k) :
    matchesPat (List.replicate k 'D') (padNum w n).data = true := by
  rw [← h]
  exact matchesPat_digits _ (fun c hc => padNum_isDigit w n c hc)

/-- The formatted clock reading always has the 19-character zero-padded
shape required by the spec, provided the fields are in datetime range. -/
theorem timestampPat_strftimeFmt (d : DateTime) (h : ValidTime d) :
    timestampPat (strftimeFmt d) = true := by
  obtain ⟨h1, h2, h3, h4, h5, h6, h7, h8, h9⟩ := h
  have hy : (padNum 4 d.year).data.length = 4 :=
    padNum_length _ _ (natDigits_length_le 4 _ (by omega) (by norm_num; omega))
  have hmo : (padNum 2 d.month).data.length = 2 :=
    padNum_length _ _ (natDigits_length_le 2 _ (by omega) (by norm_num; omega))
  have hda : (padNum 2 d.day).data.length = 2 :=
    padNum_length _ _ (natDigits_length_le 2 _ (by omega) (by norm_num; omega))
  have hho : (padNum 2 d.hour).data.length = 2 :=
    padNum_length _ _ (natDigits_length_le 2 _ (by omega) (by norm_num; omega))
  have hmi : (padNum 2 d.minute).data.length = 2 :=
    padNum_length _ _ (natDigits_length_le 2 _ (by omega) (by norm_num; omega))
  have hse : (padNum 2 d.second).data.length = 2 :=
    padNum_length _ _ (natDigits_length_le 2 _ (by omega) (by norm_num; omega))
  have hpat : ("DDDD-DD-DD DD:DD:DD" : String).data =
      List.replicate 4 'D' ++ ("-".data ++ (List.replicate 2 'D' ++ ("-".data ++
        (List.replicate 2 'D' ++ (" ".data ++ (List.replicate 2 'D' ++ (":".data ++
          (List.replicate 2 'D' ++ (":".data ++ List.replicate 2 'D'))))))))) := by
    decide
  have hstr : (strftimeFmt d).data =
      (padNum 4 d.year).data ++ ("-".data ++ ((padNum 2 d.month).data ++ ("-".data ++
        ((padNum 2 d.day).data ++ (" ".data ++ ((padNum 2 d.hour).data ++ (":".data ++
          ((padNum 2 d.minute).data ++ (":".data ++ (padNum 2 d.second).data))))))))) := by
    simp [strftimeFmt, String.data_append]
  unfold timestampPat
  rw [hpat, hstr]
  refine matchesPat_step _ _ _ _ (matchesPat_pad 4 d.year 4 hy) (by simp [hy]) ?_
  refine matchesPat_step _ _ _ _ (by decide) (by decide) ?_
  refine matchesPat_step _ _ _ _ (matchesPat_pad 2 d.month 2 hmo) (by simp [hmo]) ?_
  refine matchesPat_step _ _ _ _ (by decide) (by decide) ?_
  refine matchesPat_step _ _ _ _ (matchesPat_pad 2 d.day 2 hda) (by simp [hda]) ?_
  refine matchesPat_step _ _ _ _ (by decide) (by decide) ?_
  refine matchesPat_step _ _ _ _ (matchesPat_pad 2 d.hour 2 hho) (by simp [hho]) ?_
  refine matchesPat_step _ _ _ _ (by decide) (by decide) ?_
  refine matchesPat_step _ _ _ _ (matchesPat_pad 2 d.minute 2 hmi) (by simp [hmi]) ?_
  refine matchesPat_step _ _ _ _ (by decide) (by decide) ?_
  exact matchesPat_pad 2 d.second 2 hse

/-! Helper lemmas: locating the interpolated values inside the report. -/

theorem hasSub_generated (env : String → Option String) (now : DateTime) :
    hasSub ("Generated: " ++ strftimeFmt now).data (reportHtml env now).data = true := by
  have hsplit : seg1 =
      "<html><head><title>DevSecOps Report</title></head><body>\n    <h1>DevSecOps Security Report</h1>\n    <p>" ++
        "Generated: " := by decide
  have hdata : (reportHtml env now).data =
      ("<html><head><title>DevSecOps Report</title></head><body>\n    <h1>DevSecOps Security Report</h1>\n    <p>" :
          String).data ++
        (("Generated: " ++ strftimeFmt now).data ++ (seg2 ++ (buildOf env ++ seg3)).data) := by
    rw [reportHtml, htmlContent, hsplit]
    simp [String.data_append]
  rw [hdata]
  exact hasSub_of_split _ _ _

theorem hasSub_build (env : String → Option String) (now : DateTime) :
    hasSub ("Build: #" ++ buildOf env).data (reportHtml env now).data = true := by
  have hsplit : seg2 = "</p><p>" ++ "Build: #" := by decide
  have hdata : (reportHtml env now).data =
      (seg1 ++ (strftimeFmt now ++ "</p><p>")).data ++
        (("Build: #" ++ buildOf env).data ++ seg3.data) := by
    rw [reportHtml, htmlContent, hsplit]
    simp [String.data_append]
  rw [hdata]
  exact hasSub_of_split _ _ _

/-! Helper lemmas: the tag scanner. -/

theorem scanList_cons (c : Char) (cs : List Char)
    (st : List (List Char) × Option (List Char)) :
    scanList (c :: cs) st = scanList cs (scanStep st c) := rfl

theorem scanList_append (a b : List Char)
    (st : List (List Char) × Option (List Char)) :
    scanList (a ++ b) st = scanList b (scanList a st) :=
  List.foldl_append _ _ _ _

theorem scanStep_none_other (toks : List (List Char)) (c : Char) (h : c ≠ '<') :
    scanStep (toks, none) c = (toks, none) := by
  simp [scanStep, h]

theorem scanList_text (m : List Char) (hm : ∀ c ∈ m, c ≠ '<') :
    ∀ toks, scanList m (toks, none) = (toks, none) := by
  induction m with
  | nil => intro toks; rfl
  | cons c cs ih =>
      intro toks
      rw [scanList_cons, scanStep_none_other toks c (hm c (by simp))]
      exact ih (fun x hx => hm x (by simp [hx])) toks

theorem scanList_shift (m : List Char) :
    ∀ toks mode, scanList m (toks, mode) =
      (toks ++ (scanList m ([], mode)).1, (scanList m ([], mode)).2) := by
  induction m with
  | nil => intro toks mode; simp [scanList]
  | cons c cs ih =>
      intro toks mode
      rw [scanList_cons, scanList_cons]
      cases mode with
      | none =>
          by_cases hc : c = '<'
          · rw [show scanStep (toks, none) c = (toks, some []) by simp [scanStep, hc],
              show scanStep (([] : List (List Char)), none) c =
                (([] : List (List Char)), some []) by simp [scanStep, hc]]
            exact ih toks (some [])
          · rw [show scanStep (toks, none) c = (toks, none) by simp [scanStep, hc],
              show scanStep (([] : List (List Char)), none) c =
                (([] : List (List Char)), none) by simp [scanStep, hc]]
            exact ih toks none
      | some acc =>
          by_cases hc : c = '>'
          · rw [show scanStep (toks, some acc) c = (toks ++ [acc.reverse], none) by
                simp [scanStep, hc],
              show scanStep (([] : List (List Char)), some acc) c =
                ([acc.reverse], none) by simp [scanStep, hc]]
            rw [ih (toks ++ [acc.reverse]) none, ih [acc.reverse] none]
            simp
          · rw [show scanStep (toks, some acc) c = (toks, some (c :: acc)) by
                simp [scanStep, hc],
              show scanStep (([] : List (List Char)), some acc) c =
                (([] : List (List Char)), some (c :: acc)) by simp [scanStep, hc]]
            exact ih toks (some (c :: acc))

set_option maxRecDepth 10000 in
theorem tagsOf_htmlContent (ts build : String)
    (hts : ∀ c ∈ ts.data, c ≠ '<') (hb : ∀ c ∈ build.data, c ≠ '<') :
    tagsOf (htmlContent ts build) =
      (scanList seg1.data ([], none)).1 ++
        ((scanList seg2.data ([], none)).1 ++ (scanList seg3.data ([], none)).1) := by
  have h1 : (scanList seg1.data ([], none)).2 = none := by decide
  have h2 : (scanList seg2.data ([], none)).2 = none := by decide
  have hdata : (htmlContent ts build).data =
      seg1.data ++ (ts.data ++ (seg2.data ++ (build.data ++ seg3.data))) := by
    simp [htmlContent, String.data_append]
  unfold tagsOf
  rw [hdata]
  simp only [scanList_append]
  rcases hs1 : scanList seg1.data ([], none) with ⟨t1, m1⟩
  rw [hs1] at h1
  simp only at h1
  subst h1
  rw [scanList_text ts.data hts t1, scanList_shift seg2.data t1 none]
  rcases hs2 : scanList seg2.data ([], none) with ⟨t2, m2⟩
  rw [hs2] at h2
  simp only at h2
  subst h2
  simp only
  rw [scanList_text build.data hb (t1 ++ t2), scanList_shift seg3.data (t1 ++ t2) none]
  simp

set_option maxRecDepth 10000 in
theorem htmlBalanced_of_no_lt (ts build : String)
    (hts : ∀ c ∈ ts.data, c ≠ '<') (hb : ∀ c ∈ build.data, c ≠ '<') :
    htmlBalanced (htmlContent ts build) = true := by
  unfold htmlBalanced
  rw [tagsOf_htmlContent ts build hts hb]
  decide

theorem strftimeFmt_no_lt (d : DateTime) (c : Char)
    (hc : c ∈ (strftimeFmt d).data) : c ≠ '<' := by
  have hdash : ("-" : String).data = ['-'] := by decide
  have hsp : (" " : String).data = [' '] := by decide
  have hcol : (":" : String).data = [':'] := by decide
  simp only [strftimeFmt, String.data_append, List.mem_append, hdash, hsp, hcol,
    List.mem_singleton, or_assoc] at hc
  rcases hc with h | h | h | h | h | h | h | h | h | h | h
  all_goals first
    | (have hd := padNum_isDigit _ _ c h
       intro heq
       rw [heq] at hd
       exact absurd hd (by decide))
    | (rw [h]; decide)

/-- The f-string text equals the six-line spec template once every line
after the first carries four spaces of indentation. -/
theorem htmlContent_eq_indented (ts b : String) :
    htmlContent ts b = specTemplateIndented ts b := by
  rw [htmlContent, seg1, seg2, seg3]
  simp [specTemplateIndented, String.intercalate, String.intercalate.go, String.append_assoc]
  rw [← String.append_assoc
    "<html><head><title>DevSecOps Report</title></head><body>\n    <h1>DevSecOps Security Report</h1>\n    "
    "<p>Generated: "]
  rw [show ("<html><head><title>DevSecOps Report</title></head><body>\n    <h1>DevSecOps Security Report</h1>\n    " : String) ++
      "<p>Generated: " =
      "<html><head><title>DevSecOps Report</title></head><body>\n    <h1>DevSecOps Security Report</h1>\n    <p>Generated: "
    from by decide]

/-! The claims. -/

/-- C1: for every environment, a successful run leaves a file named
security-report.html whose content contains the marker Build: # followed
immediately by the BUILD_NUMBER value when that variable is set, and by
the literal Unknown when it is unset. -/
theorem generate_writes_build_marker (env : String → Option String)
    (now : DateTime) (w : World) :
    (runGenerate env now .ok w).1.fs reportFileName = some (reportHtml env now) ∧
    (∀ v, env "BUILD_NUMBER" = some v →
      hasSub ("Build: #" ++ v).data (reportHtml env now).data = true) ∧
    (env "BUILD_NUMBER" = none →
      hasSub ("Build: #Unknown" : String).data (reportHtml env now).data = true) := by
  refine ⟨?_, ?_, ?_⟩
  · simp [runGenerate, setFile]
  · intro v hv
    have hb : buildOf env = v := by simp [buildOf, hv]
    have hs := hasSub_build env now
    rwa [hb] at hs
  · intro hv
    have hb : buildOf env = "Unknown" := by simp [buildOf, hv]
    have hs := hasSub_build env now
    rw [hb] at hs
    rwa [show ("Build: #" ++ "Unknown" : String) = "Build: #Unknown" from by decide] at hs

/-- Witness for C1 at BUILD_NUMBER = 42. -/
theorem generate_writes_build_marker_witness :
    hasSub ("Build: #" ++ "42").data (reportHtml (envOf "42") sampleTime).data = true :=
  (generate_writes_build_marker (envOf "42") sampleTime emptyWorld).2.1 "42" (by decide)

set_option maxRecDepth 10000 in
/-- C2, counterexample: with BUILD_NUMBER set to the empty string the code
embeds the empty string, not the default, and the report does not contain
Build: #Unknown. -/
theorem build_empty_env_counterexample :
    (envOf "") "BUILD_NUMBER" = some "" ∧
    buildOf (envOf "") ≠ "Unknown" ∧
    hasSub ("Build: #Unknown" : String).data (reportHtml (envOf "") sampleTime).data = false := by
  exact ⟨by decide, by decide, by decide⟩

/-- C2, amended: the Unknown default applies exactly when the variable is
unset; a present-but-empty value is embedded as the empty string. -/
theorem build_default_only_when_unset (env : String → Option String) :
    (env "BUILD_NUMBER" = some "" → buildOf env = "") ∧
    (env "BUILD_NUMBER" = none → buildOf env = "Unknown") := by
  constructor <;> intro h <;> simp [buildOf, h]

/-- Witness for the amended C2. -/
theorem build_default_only_when_unset_witness :
    buildOf (envOf "") = "" ∧ buildOf envUnset = "Unknown" :=
  ⟨(build_default_only_when_unset (envOf "")).1 (by decide),
   (build_default_only_when_unset envUnset).2 (by decide)⟩

set_option maxRecDepth 10000 in
/-- C3, counterexample: the written bytes differ from the flush-left
template printed in the spec, because the triple-quoted f-string keeps the
source indentation. -/
theorem template_not_flush_left :
    (runGenerate (envOf "42") sampleTime .ok emptyWorld).1.fs reportFileName ≠
      some (specTemplateFlushLeft (strftimeFmt sampleTime) "42") := by
  decide

/-- C3, amended: the written bytes are exactly the spec template with the
two placeholders substituted, except that every line after the first
begins with four spaces of leading whitespace. -/
theorem generate_writes_indented_template (env : String → Option String)
    (now : DateTime) (w : World) :
    (runGenerate env now .ok w).1.fs reportFileName =
      some (specTemplateIndented (strftimeFmt now) (buildOf env)) := by
  rw [← htmlContent_eq_indented]
  simp [runGenerate, setFile, reportHtml]

set_option maxRecDepth 10000 in
/-- C4, counterexample: an adversarial BUILD_NUMBER value carrying markup
is embedded verbatim and breaks the proper nesting of the document. -/
theorem html_injection_counterexample :
    htmlBalanced (reportHtml (envOf "</p></body></html>") sampleTime) = false := by
  decide

/-- C4, amended: the report always contains the captured timestamp and
build identifier verbatim, and it is well-formed (properly nested) HTML
whenever the build value contains no tag-opening character. -/
theorem generate_verbatim_and_balanced (env : String → Option String)
    (now : DateTime) :
    hasSub ("Generated: " ++ strftimeFmt now).data (reportHtml env now).data = true ∧
    hasSub ("Build: #" ++ buildOf env).data (reportHtml env now).data = true ∧
    ((∀ c ∈ (buildOf env).data, c ≠ '<') →
      htmlBalanced (reportHtml env now) = true) := by
  refine ⟨hasSub_generated env now, hasSub_build env now, ?_⟩
  intro hb
  exact htmlBalanced_of_no_lt _ _ (fun c hc => strftimeFmt_no_lt now c hc) hb

/-- Witness for the amended C4 at BUILD_NUMBER = 42. -/
theorem generate_verbatim_and_balanced_witness :
    htmlBalanced (reportHtml (envOf "42") sampleTime) = true :=
  (generate_verbatim_and_balanced (envOf "42") sampleTime).2.2 (by decide)

/-- C5: the embedded timestamp always has the zero-padded 19-character
shape, and it is the formatted image of the clock value read at the start
of the invocation. -/
theorem generate_timestamp_format (env : String → Option String)
    (now : DateTime) (h : ValidTime now) :
    timestampPat (strftimeFmt now) = true ∧
    hasSub ("Generated: " ++ strftimeFmt now).data (reportHtml env now).data = true :=
  ⟨timestampPat_strftimeFmt now h, hasSub_generated env now⟩

/-- Witness for C5 at a concrete clock value. -/
theorem generate_timestamp_format_witness :
    timestampPat (strftimeFmt sampleTime) = true :=
  (generate_timestamp_format envUnset sampleTime (by decide)).1

/-- C6: a successful run appends exactly one line to standard output, the
fixed confirmation message. -/
theorem generate_prints_confirmation (env : String → Option String)
    (now : DateTime) (w : World) :
    (runGenerate env now .ok w).1.stdoutLines =
      w.stdoutLines ++ ["Security report generated: security-report.html"] := by
  simp [runGenerate, confirmMsg]

/-- C7: the run returns an error exactly when the filesystem interaction
fails, the error is passed through untranslated, and no confirmation line
is printed in that case. -/
theorem generate_propagates_write_errors (env : String → Option String)
    (now : DateTime) (o : WriteOutcome) (w : World) :
    ((runGenerate env now o w).2 = none ↔ o = .ok) ∧
    ((runGenerate env now o w).2 ≠ none →
      (runGenerate env now o w).2 = some o ∧
      (runGenerate env now o w).1.stdoutLines = w.stdoutLines) := by
  cases o <;> simp [runGenerate]

/-- Witness for C7 at a failing write. -/
theorem generate_propagates_write_errors_witness :
    (runGenerate envUnset sampleTime .writeFail emptyWorld).2 = some .writeFail ∧
    (runGenerate envUnset sampleTime .writeFail emptyWorld).1.stdoutLines =
      emptyWorld.stdoutLines :=
  (generate_propagates_write_errors envUnset sampleTime .writeFail emptyWorld).2 (by decide)

/-- C8: on every outcome the trace balances handle acquisition with
release, and in particular the handle is released on the path where the
write itself raises. -/
theorem with_block_releases_handle (env : String → Option String)
    (now : DateTime) (o : WriteOutcome) :
    ((generateTrace env now o).filter isOpenEv).length =
      ((generateTrace env now o).filter isCloseEv).length ∧
    Ev.closeEv ∈ generateTrace env now .writeFail := by
  cases o <;> simp [generateTrace, isOpenEv, isCloseEv]

/-- C9: running twice in succession leaves exactly the second run's
document in the file, whatever the directory held before. -/
theorem second_run_overwrites (env1 env2 : String → Option String)
    (now1 now2 : DateTime) (w : World) :
    ((runGenerate env2 now2 .ok (runGenerate env1 now1 .ok w).1).1).fs reportFileName =
      some (reportHtml env2 now2) := by
  simp [runGenerate, setFile]

/-- C10: two runs that read the same clock value and the same BUILD_NUMBER
lookup result produce identical worlds; no other environment variable
influences the outcome. -/
theorem generate_depends_only_on_build_and_clock (env1 env2 : String → Option String)
    (now1 now2 : DateTime) (o : WriteOutcome) (w : World)
    (henv : env1 "BUILD_NUMBER" = env2 "BUILD_NUMBER") (hnow : now1 = now2) :
    runGenerate env1 now1 o w = runGenerate env2 now2 o w := by
  subst hnow
  have hb : buildOf env1 = buildOf env2 := by simp [buildOf, henv]
  have hr : reportHtml env1 now1 = reportHtml env2 now1 := by simp [reportHtml, hb]
  cases o <;> simp [runGenerate, hr]

/-- Witness for C10: an environment that sets only PATH yields the same
run as the empty environment. -/
theorem generate_depends_only_on_build_and_clock_witness :
    runGenerate envPathOnly sampleTime .ok emptyWorld =
      runGenerate envUnset sampleTime .ok emptyWorld :=
  generate_depends_only_on_build_and_clock envPathOnly envUnset sampleTime sampleTime .ok
    emptyWorld (by decide) rfl

end SecReport
